import Mathlib

/-!
# Verification of the food-delivery backend core (cart → checkout → order, ranking)

Shallow embedding of the repository's core logic:

* `source/models/Food.js`   — the Food schema (`FoodSchema`)
* `source/models/cart.js`   — the Cart schema and its pre-save hook
* `source/models/Order.js`  — the Order schema and its pre-save hook
* `source/models/shop.js`   — the Shop schema and `updateRating`
* `source/routes/cart.js`   — cart mutation routes and `POST /checkout`
* `source/routes/Shop.js`   — `GET /trending` aggregation pipeline

JS numbers are idealised as exact rationals (`ℚ`); timestamps are
milliseconds-since-epoch (`Nat` / `Int`); Mongo ObjectIds are opaque `Nat`s;
JS `undefined` for a document path absent from a schema is `Option.none`;
a thrown exception caught by a route's `try/catch` is the 500-internal-error
result.  `Math.round` in JS rounds half toward `+∞`, i.e. `⌊x + 1/2⌋`.
-/

/-- JS `Math.round`: round half toward positive infinity. -/
def jsRound (x : ℚ) : ℤ := ⌊x + 1/2⌋

/-- A Mongo ObjectId, opaque. -/
abbrev Oid := Nat

/-- JS truthiness of a possibly-`undefined` boolean (`undefined` is falsy). -/
def truthy : Option Bool → Bool
  | none => false
  | some b => b

/-! ## Food (`source/models/Food.js`) -/

/-- The `FoodSchema`: name, cooking_time (min 1), price (min 1), instock,
veg, beverage, cuisine, order_num, image, menu_category, shopid (a Number),
createdBy, createdAt, updatedAt. -/
structure Food where
  oid : Oid
  name : String
  cooking_time : ℚ
  price : ℚ
  instock : Bool := true
  veg : Bool := false
  beverage : Bool := false
  cuisine : String := "International"
  order_num : ℚ := 0
  image : String
  menu_category : ℤ
  shopid : ℤ
  deriving Repr, DecidableEq, Inhabited

/-- The `FoodSchema` has no path named `shop`; reading `food.shop` on any Food
document yields JS `undefined`.  (The cart route reads this path.) -/
def Food.shopRead (_ : Food) : Option Oid := none

/-- The `FoodSchema` has no path named `available`; reading `food.available`
yields JS `undefined`.  (The cart route reads this path.) -/
def Food.availableRead (_ : Food) : Option Bool := none

/-! ## Cart (`source/models/cart.js`) -/

/-- The `cartItemSchema`: food ref, shop ref, quantity (min 1), price, subtotal. -/
structure CartItem where
  food : Oid
  shop : Oid
  quantity : ℚ
  price : ℚ
  subtotal : ℚ
  deriving Repr, DecidableEq, Inhabited

/-- The `cartSchema`: user ref, items, totalAmount (default 0),
isCheckedOut (default false), createdAt, updatedAt. -/
structure Cart where
  oid : Oid
  user : Oid
  items : List CartItem
  totalAmount : ℚ := 0
  isCheckedOut : Bool := false
  createdAt : Nat
  updatedAt : Option Nat := none
  deriving Repr, DecidableEq, Inhabited

/-- Sum of `item.subtotal` over the items of a cart. -/
def sumSubtotals (items : List CartItem) : ℚ :=
  (items.map (·.subtotal)).sum

/-- The `cartSchema.pre('save')` hook: recalculate `totalAmount` as the sum of the
items' subtotals and stamp `updatedAt`, before every save. -/
def Cart.preSave (c : Cart) (now : Nat) : Cart :=
  { c with totalAmount := sumSubtotals c.items, updatedAt := some now }

/-! ## Order (`source/models/Order.js`) -/

inductive OrderStatus where
  | pending | confirmed | preparing | out_for_delivery | delivered | cancelled
  deriving Repr, DecidableEq, Inhabited

inductive PaymentMethod where
  | cod | card | upi | wallet
  deriving Repr, DecidableEq, Inhabited

inductive PaymentStatus where
  | pending | completed | failed | refunded
  deriving Repr, DecidableEq, Inhabited

/-- The `orderItemSchema`: food ref, quantity, price, subtotal, denormalized
food name. -/
structure OrderItem where
  foodId : Oid
  quantity : ℚ
  price : ℚ
  subtotal : ℚ
  foodName : String
  deriving Repr, DecidableEq, Inhabited

/-- Delivery address sub-document of `OrderSchema`. -/
structure Address where
  street : String
  city : String
  state : String
  pincode : String
  landmark : Option String := none
  deriving Repr, DecidableEq, Inhabited

/-- The `OrderSchema` (the fields the core writes at checkout). -/
structure Order where
  userId : Oid
  shopId : Oid
  orderId : String
  items : List OrderItem
  totalAmount : ℚ
  deliveryFee : ℚ := 0
  taxes : ℚ := 0
  grandTotal : ℚ
  deliveryTime : Option ℚ := none
  status : OrderStatus := .pending
  paymentMethod : PaymentMethod
  paymentStatus : PaymentStatus := .pending
  paymentId : Option String := none
  deliveryAddress : Address
  phoneNumber : String
  estimatedDeliveryTime : Option Nat := none
  createdAt : Nat
  deriving Repr, DecidableEq, Inhabited

/-- Zero-pad a number below 1000 to three digits
(`.toString().padStart(3, '0')`). -/
def pad3 (n : Nat) : String :=
  let s := toString n
  if s.length < 3 then String.mk (List.replicate (3 - s.length) '0') ++ s else s

/-! ## Shop (`source/models/shop.js`) -/

/-- The `rating` sub-document of the Shop schema: average ∈ [0,5], count. -/
structure ShopRating where
  average : ℚ := 0
  count : ℚ := 0
  deriving Repr, DecidableEq, Inhabited

/-- The Shop schema (the fields the core logic reads). -/
structure Shop where
  oid : Oid
  name : String
  rating : ShopRating := {}
  isFeatured : Bool := false
  isActive : Bool := true
  isVerified : Bool := false
  online : Bool := true
  deliveryCharge : ℚ := 0
  deriving Repr, DecidableEq, Inhabited

/-- The method `shopSchema.methods.updateRating`: incremental mean, then round the new
average to one decimal (`Math.round(x * 10) / 10`), and bump the count. -/
def Shop.updateRating (s : Shop) (newRating : ℚ) : Shop :=
  let total := s.rating.average * s.rating.count
  let count := s.rating.count + 1
  let average := (jsRound (((total + newRating) / count) * 10) : ℚ) / 10
  { s with rating := { average := average, count := count } }

/-! ## The persisted state

One document store holding foods, shops, carts and orders.  Route handlers
read it with `findOne`/`findById` and write it through `save` (which runs the
relevant pre-save hook).  An error result models an early `return` in the
handler (4xx) or a thrown-and-caught exception (the 500 branch); in both
cases the handler returns before reaching any `save`, so the store is
untouched.
-/

structure Db where
  foods : List Food
  shops : List Shop
  carts : List Cart
  orders : List Order
  deriving Repr, DecidableEq, Inhabited

/-- Lookup `Food.findById(foodId)`. -/
def Db.findFood (db : Db) (foodId : Oid) : Option Food :=
  db.foods.find? (fun f => f.oid == foodId)

/-- Lookup `Cart.findOne` on user and `isCheckedOut: false`: the open cart. -/
def Db.openCart (db : Db) (u : Oid) : Option Cart :=
  db.carts.find? (fun c => c.user == u && !c.isCheckedOut)

/-- A fresh ObjectId for a newly constructed cart document. -/
def Db.freshCartId (db : Db) : Oid :=
  db.carts.foldr (fun c m => max m (c.oid + 1)) 0

/-- Save `cart.save()`: run the pre-save hook, then upsert the document by id.
Returns the saved document (the handler responds with it) and the new store. -/
def Db.saveCart (db : Db) (c : Cart) (now : Nat) : Cart × Db :=
  let c' := c.preSave now
  let carts' :=
    if db.carts.any (fun x => x.oid == c'.oid) then
      db.carts.map (fun x => if x.oid == c'.oid then c' else x)
    else
      db.carts ++ [c']
  (c', { db with carts := carts' })

/-! ## Cart routes (`source/routes/cart.js`) -/

/-- The error responses the cart routes produce.  `internalServer` is the
catch-all 500 from a route's `try/catch`. -/
inductive ApiErr where
  /-- Status 400, "Food ID and Shop ID are required". -/
  | missingIds
  /-- Status 404, "Food item not found". -/
  | foodNotFound
  /-- Status 400, "Food item does not belong to the specified shop". -/
  | shopMismatch
  /-- Status 400, "Food item is currently unavailable". -/
  | foodUnavailable
  /-- Status 400, "Quantity must be at least 1". -/
  | invalidQuantity
  /-- Status 404, "Cart not found". -/
  | cartNotFound
  /-- Status 404, "Item not found in cart". -/
  | itemNotFound
  /-- Status 400, "Payment method, delivery address, and phone number are required". -/
  | missingCheckoutFields
  /-- Status 400, "Cart is empty". -/
  | cartEmpty
  /-- Status 500 from the catch block (a thrown exception). -/
  | internalServer
  deriving Repr, DecidableEq, Inhabited

/-- Route `POST /add`.  The route looks the food up, then reads `food.shop` and
`food.available` — paths that do not exist on `FoodSchema` (which defines
`shopid` and `instock` instead), so both reads yield `undefined`.
`undefined.toString()` throws a TypeError which the catch block turns into
the 500 response.  The merge/append logic below the checks is kept verbatim
even though, with `Food.shopRead` constantly `none`, it is unreachable.
(The route's initial `if (!foodId || !shopId)` 400-branch guards absent
request fields; the arguments here are already-present values.)
On success the route responds with the saved cart. -/
def addItem (db : Db) (u : Oid) (foodId shopId : Oid) (quantity : ℚ)
    (now : Nat) : Except ApiErr (Cart × Db) :=
  match db.findFood foodId with
  | none => .error .foodNotFound
  | some food =>
    match food.shopRead with
    | none => .error .internalServer
    | some foodShop =>
      if foodShop != shopId then .error .shopMismatch
      else if !(truthy food.availableRead) then .error .foodUnavailable
      else
        let cart :=
          match db.openCart u with
          | some c => c
          | none =>
            { oid := db.freshCartId, user := u, items := [], createdAt := now }
        let price := food.price
        let subtotal := price * quantity
        let items' :=
          match cart.items.findIdx?
              (fun item => item.food == foodId && item.shop == shopId) with
          | some i =>
            match cart.items[i]? with
            | some item =>
              cart.items.set i
                { item with
                  quantity := item.quantity + quantity,
                  subtotal := (item.quantity + quantity) * price }
            | none => cart.items
          | none =>
            cart.items ++
              [{ food := foodId, shop := shopId, quantity := quantity,
                 price := price, subtotal := subtotal }]
        .ok (db.saveCart { cart with items := items' } now)

/-- Route `PUT /update/:itemIndex`. -/
def updateItem (db : Db) (u : Oid) (itemIndex : Nat) (quantity : ℚ)
    (now : Nat) : Except ApiErr (Cart × Db) :=
  if quantity < 1 then .error .invalidQuantity
  else
    match db.openCart u with
    | none => .error .cartNotFound
    | some cart =>
      if cart.items.length ≤ itemIndex then .error .itemNotFound
      else
        match cart.items[itemIndex]? with
        | none => .error .itemNotFound
        | some item =>
          let items' := cart.items.set itemIndex
            { item with quantity := quantity, subtotal := item.price * quantity }
          .ok (db.saveCart { cart with items := items' } now)

/-- Route `DELETE /remove/:itemIndex`. -/
def removeItem (db : Db) (u : Oid) (itemIndex : Nat) (now : Nat) :
    Except ApiErr (Cart × Db) :=
  match db.openCart u with
  | none => .error .cartNotFound
  | some cart =>
    if cart.items.length ≤ itemIndex then .error .itemNotFound
    else
      .ok (db.saveCart { cart with items := cart.items.eraseIdx itemIndex } now)

/-- Route `DELETE /clear`.  With no open cart the route succeeds without saving
anything ("Cart is already empty"), hence the `none` cart in the result. -/
def clearCart (db : Db) (u : Oid) (now : Nat) :
    Except ApiErr (Option Cart × Db) :=
  match db.openCart u with
  | none => .ok (none, db)
  | some cart =>
    let saved := db.saveCart { cart with items := [] } now
    .ok (some saved.1, saved.2)

/-! ## Checkout (`POST /checkout` in `source/routes/cart.js`) -/

/-- The checkout request body: `paymentMethod`, `deliveryAddress`,
`phoneNumber` (each possibly absent; an absent or empty-string field is JS
falsy and trips the 400 validation).  Request bodies carrying a string that
is not one of the schema's payment-method enum values would fail later, at
`order.save()` validation, with the 500 branch; such bodies are outside the
claims and not represented. -/
structure CheckoutReq where
  paymentMethod : Option PaymentMethod
  deliveryAddress : Option Address
  phoneNumber : Option String
  deriving Repr, DecidableEq, Inhabited

/-- The payment simulation block: `paymentStatus` starts `'pending'` and
`paymentId` starts `null`; `cod` issues a `COD_` reference and stays pending,
`card`/`upi` complete immediately with a `PAY_` reference, and any other
method (`wallet`) leaves both initial values untouched. -/
def paymentSim (pm : PaymentMethod) (now : Nat) : PaymentStatus × Option String :=
  match pm with
  | .cod => (.pending, some ("COD_" ++ toString now))
  | .card => (.completed, some ("PAY_" ++ toString now))
  | .upi => (.completed, some ("PAY_" ++ toString now))
  | .wallet => (.pending, none)

/-- Denormalization `cart.items.map(...)` over the populated cart: each item is denormalized
into an order item carrying `item.food._id` and `item.food.name`.  When a
referenced food no longer exists, `populate` leaves `item.food` as `null`
and `item.food._id` throws (→ `none`, i.e. the 500 branch). -/
def resolveOrderItems (db : Db) : List CartItem → Option (List OrderItem)
  | [] => some []
  | item :: rest =>
    match db.findFood item.food with
    | none => none
    | some f =>
      (resolveOrderItems db rest).map
        (fun os =>
          { foodId := f.oid, quantity := item.quantity, price := item.price,
            subtotal := item.subtotal, foodName := f.name } :: os)

/-- The `OrderSchema.pre('save')` hook: generate
`ORD<millisecond timestamp><3-digit zero-padded random>` for a new order.
`rand` stands for `Math.floor(Math.random() * 1000)`. -/
def genOrderId (now : Nat) (rand : Nat) : String :=
  "ORD" ++ toString now ++ pad3 (rand % 1000)

/-- Route `POST /checkout`.  Returns the handler's response (the created order and
the saved cart, or an error) paired with the store after the request: the
error branches return before any `save`, so there the store is unchanged.
`now` stands for `Date.now()` and `rand` for the random suffix drawn by the
order pre-save hook. -/
def checkout (db : Db) (u : Oid) (req : CheckoutReq) (now : Nat)
    (rand : Nat) : Except ApiErr (Order × Cart) × Db :=
  match req.paymentMethod, req.deliveryAddress, req.phoneNumber with
  | some pm, some addr, some phone =>
    if phone == "" then (.error .missingCheckoutFields, db)
    else
      match db.openCart u with
      | none => (.error .cartEmpty, db)
      | some cart =>
        match cart.items with
        | [] => (.error .cartEmpty, db)
        | item0 :: _ =>
          let deliveryFee : ℚ := 50
          let taxes : ℚ := (jsRound (cart.totalAmount * (5 / 100)) : ℚ)
          let grandTotal := cart.totalAmount + deliveryFee + taxes
          let pay := paymentSim pm now
          -- `cart.items[0].shop._id` on the populated cart: a dangling shop
          -- ref populates to `null` and `null._id` throws (500 branch).
          match db.shops.find? (fun s => s.oid == item0.shop) with
          | none => (.error .internalServer, db)
          | some shop0 =>
            match resolveOrderItems db cart.items with
            | none => (.error .internalServer, db)
            | some orderItems =>
              let order : Order :=
                { userId := u,
                  shopId := shop0.oid,
                  orderId := genOrderId now rand,
                  items := orderItems,
                  totalAmount := cart.totalAmount,
                  deliveryFee := deliveryFee,
                  taxes := taxes,
                  grandTotal := grandTotal,
                  paymentMethod := pm,
                  paymentStatus := pay.1,
                  paymentId := pay.2,
                  deliveryAddress := addr,
                  phoneNumber := phone,
                  status := .confirmed,
                  deliveryTime := some 45,
                  estimatedDeliveryTime := some (now + 45 * 60 * 1000),
                  createdAt := now }
              let db1 := { db with orders := db.orders ++ [order] }
              let saved := db1.saveCart { cart with isCheckedOut := true } now
              (.ok (order, saved.1), saved.2)
  | _, _, _ => (.error .missingCheckoutFields, db)

/-! ## Trending shops (`GET /trending` in `source/routes/Shop.js`)

The pipeline's `$geoNear` stage attaches a `distance` field (meters, shops
within 15 km, active/verified/online); the stages after it — the orders
`$lookup`, `$addFields`, `$match`, `$sort` — are modelled below over
documents already carrying that distance. -/

/-- A shop document after the `$geoNear` stage: the shop plus the computed
`distance` in meters. -/
structure TrendingDoc where
  shop : Shop
  distance : ℚ
  deriving Repr, DecidableEq, Inhabited

def msPerWeek : Int := 7 * 24 * 60 * 60 * 1000

/-- The `weeklyStats` `$lookup` sub-pipeline: it binds
`let: { shopId: '$_id' }` but then matches
`$expr: { $eq: ['$shopId', '$shopId'] }` — both operands resolve to the
*order's* `shopId` (the bound variable would be `$$shopId`), so the equality
is identically true and the count is over *all* delivered orders of the last
7 days, for every shop alike.  The self-comparison is kept verbatim. -/
def weeklyStatsOrderCount (orders : List Order) (now : Int) : Nat :=
  (orders.filter (fun o =>
    (o.shopId == o.shopId) && (o.status == OrderStatus.delivered)
      && decide (now - msPerWeek ≤ (o.createdAt : Int)))).length

/-- The per-shop weekly delivered-order count that the unused
`let: { shopId: '$_id' }` binding was meant to correlate on (what the
`weeklyOrders` of the spec denotes). -/
def shopWeeklyOrders (sid : Oid) (orders : List Order) (now : Int) : Nat :=
  (orders.filter (fun o =>
    (o.shopId == sid) && (o.status == OrderStatus.delivered)
      && decide (now - msPerWeek ≤ (o.createdAt : Int)))).length

/-- The field `$addFields.trendingScore`: `2×rating.average + weeklyOrders +
(isFeatured ? 5 : 0) + (distance ≤ 5000 m ? 3 : 0)`. -/
def trendingScore (d : TrendingDoc) (orders : List Order) (now : Int) : ℚ :=
  d.shop.rating.average * 2 + (weeklyStatsOrderCount orders now : ℚ)
    + (if d.shop.isFeatured then 5 else 0)
    + (if d.distance ≤ 5000 then 3 else 0)

/-- The `$match` stage: keep a shop iff `rating.average ≥ 4.0` or
`weeklyOrders ≥ 5` or `isFeatured`. -/
def trendingIncluded (d : TrendingDoc) (orders : List Order) (now : Int) : Bool :=
  decide (4 ≤ d.shop.rating.average)
    || decide (5 ≤ weeklyStatsOrderCount orders now)
    || d.shop.isFeatured

/-- The stage `$sort: { trendingScore: -1, 'rating.average': -1 }` as a total
comparison between two documents. -/
def trendingLE (orders : List Order) (now : Int) (a b : TrendingDoc) : Bool :=
  decide (trendingScore b orders now < trendingScore a orders now)
    || (decide (trendingScore a orders now = trendingScore b orders now)
        && decide (b.shop.rating.average ≤ a.shop.rating.average))

/-- Stages 2–6 of the `/trending` aggregation: the lookup-derived fields,
the `$match` filter, the `$sort`, and the `$limit`. -/
def trendingPipeline (docs : List TrendingDoc) (orders : List Order)
    (now : Int) (limit : Nat) : List TrendingDoc :=
  ((docs.filter (fun d => trendingIncluded d orders now)).mergeSort
    (trendingLE orders now)).take limit

/-! ## Cart mutation sequences

The four cart-mutating routes as one step type, to state the totals
invariant over arbitrary sequences of successful mutations. -/

/-- One cart-mutating request: `POST /add`, `PUT /update/:itemIndex`,
`DELETE /remove/:itemIndex`, `DELETE /clear`. -/
inductive CartMut where
  | add (foodId shopId : Oid) (quantity : ℚ)
  | update (itemIndex : Nat) (quantity : ℚ)
  | remove (itemIndex : Nat)
  | clear
  deriving Repr, DecidableEq, Inhabited

/-- Dispatch one mutating request at time `now`.  The first component of a
success is the cart document the route saved and responded with (`none` for
a `clear` that found no open cart, which saves nothing). -/
def applyMut (db : Db) (u : Oid) (m : CartMut) (now : Nat) :
    Except ApiErr (Option Cart × Db) :=
  match m with
  | .add foodId shopId quantity =>
    (addItem db u foodId shopId quantity now).map (fun r => (some r.1, r.2))
  | .update itemIndex quantity =>
    (updateItem db u itemIndex quantity now).map (fun r => (some r.1, r.2))
  | .remove itemIndex =>
    (removeItem db u itemIndex now).map (fun r => (some r.1, r.2))
  | .clear => clearCart db u now

/-- Run a sequence of timestamped mutating requests, threading the store and
remembering the cart saved by the most recent step. -/
def runMuts (db : Db) (u : Oid) (last : Option Cart) :
    List (CartMut × Nat) → Except ApiErr (Option Cart × Db)
  | [] => .ok (last, db)
  | (m, now) :: ms =>
    match applyMut db u m now with
    | .error e => .error e
    | .ok (c?, db') => runMuts db' u c? ms

/-! ## Concrete fixtures

A tiny store used by the witnesses and the concrete bug exhibits: one shop
(id 7), an in-stock food (id 1, price 100, `shopid` 7), an out-of-stock food
(id 2, `shopid` 7), and user 9's open cart holding 2 × food 1. -/

def exFood1 : Food :=
  { oid := 1, name := "Margherita", cooking_time := 10, price := 100,
    instock := true, image := "img1", menu_category := 1, shopid := 7 }

def exFood2 : Food :=
  { oid := 2, name := "Veggie Burger", cooking_time := 5, price := 50,
    instock := false, image := "img2", menu_category := 1, shopid := 7 }

def exShop : Shop := { oid := 7, name := "Roma Kitchen" }

def exItem : CartItem :=
  { food := 1, shop := 7, quantity := 2, price := 100, subtotal := 200 }

def exCart : Cart :=
  { oid := 11, user := 9, items := [exItem], totalAmount := 200, createdAt := 0 }

def exDb : Db :=
  { foods := [exFood1, exFood2], shops := [exShop], carts := [exCart],
    orders := [] }

def exAddr : Address :=
  { street := "12 MG Road", city := "Pune", state := "MH", pincode := "411001" }

def exReq : CheckoutReq :=
  { paymentMethod := some .cod, deliveryAddress := some exAddr,
    phoneNumber := some "9876543210" }

/-- The order returned by the example checkout (`now = 1000`, `rand = 7`). -/
def exOrder : Order :=
  match (checkout exDb 9 exReq 1000 7).1 with
  | .ok r => r.1
  | .error _ => default

/-- The saved cart returned by the example checkout. -/
def exCartAfter : Cart :=
  match (checkout exDb 9 exReq 1000 7).1 with
  | .ok r => r.2
  | .error _ => default

/-- The store after the example checkout. -/
def exDbAfter : Db := (checkout exDb 9 exReq 1000 7).2

/-- A store whose only cart for user 9 is open and empty. -/
def exEmptyCart : Cart := { oid := 12, user := 9, items := [], createdAt := 0 }

def exDbEmpty : Db :=
  { foods := [exFood1, exFood2], shops := [exShop], carts := [exEmptyCart],
    orders := [] }

/-- The example mutation sequence: set the quantity of item 0 to 3. -/
def exMuts : List (CartMut × Nat) := [(CartMut.update 0 3, 5)]

/-- The cart saved by the last step of the example mutation sequence. -/
def exRunCart : Cart :=
  match runMuts exDb 9 none exMuts with
  | .ok (some c, _) => c
  | _ => default

/-- The store after the example mutation sequence. -/
def exRunDb : Db :=
  match runMuts exDb 9 none exMuts with
  | .ok (_, d) => d
  | _ => default

/-- A shop the trending claim says must be excluded: rating average 3.5,
not featured, and no delivered order of its own. -/
def exTrendShop : Shop :=
  { oid := 1, name := "Quiet Corner", rating := { average := 7 / 2, count := 4 },
    isVerified := true }

/-- The shop `exTrendShop` after `$geoNear`, 6 km away (so no proximity bonus). -/
def exTrendDoc : TrendingDoc := { shop := exTrendShop, distance := 6000 }

/-- A delivered order for a *different* shop (id 2), placed at the query
time, hence inside the trailing week. -/
def exOtherOrder : Order :=
  { userId := 3, shopId := 2, orderId := "ORDx", items := [], totalAmount := 10,
    grandTotal := 10, paymentMethod := .cod, deliveryAddress := exAddr,
    phoneNumber := "9876543210", status := .delivered, createdAt := 604800000 }

/-- Six delivered orders, all for shop 2, none for `exTrendShop`. -/
def exOrders : List Order := List.replicate 6 exOtherOrder

/-- The query instant for the trending exhibit (one week into the epoch, so
the trailing-week cutoff is 0). -/
def exNow : Int := 604800000

/-- A shop with rating average 4.0 over 10 ratings, for the rating-update
example. -/
def exRatedShop : Shop :=
  { oid := 20, name := "Spice Hub", rating := { average := 4, count := 10 } }

/-! ## Helper lemmas -/

lemma saveCart_fst_totalAmount (db : Db) (c : Cart) (now : Nat) :
    ((db.saveCart c now).1).totalAmount = sumSubtotals ((db.saveCart c now).1).items := by
  simp [Db.saveCart, Cart.preSave]

lemma except_map_ok {e a b : Type} (f : a → b) (x : Except e a) (y : b)
    (h : x.map f = .ok y) : ∃ v, x = .ok v ∧ f v = y := by
  cases x with
  | error err => simp [Except.map] at h
  | ok v => exact ⟨v, rfl, by simpa [Except.map] using h⟩

lemma addItem_ne_ok (db : Db) (u foodId shopId : Oid) (quantity : ℚ)
    (now : Nat) (r : Cart × Db) : addItem db u foodId shopId quantity now ≠ .ok r := by
  unfold addItem
  split
  · simp
  · split
    · simp
    · next heq => simp [Food.shopRead] at heq

lemma updateItem_ok_totalAmount (db : Db) (u : Oid) (itemIndex : Nat)
    (quantity : ℚ) (now : Nat) (c' : Cart) (db' : Db)
    (h : updateItem db u itemIndex quantity now = .ok (c', db')) :
    c'.totalAmount = sumSubtotals c'.items := by
  unfold updateItem at h
  split at h
  · simp at h
  · split at h
    · simp at h
    · split at h
      · simp at h
      · split at h
        · simp at h
        · simp only [Except.ok.injEq, Prod.ext_iff] at h
          rw [← h.1]
          exact saveCart_fst_totalAmount ..

lemma removeItem_ok_totalAmount (db : Db) (u : Oid) (itemIndex : Nat)
    (now : Nat) (c' : Cart) (db' : Db)
    (h : removeItem db u itemIndex now = .ok (c', db')) :
    c'.totalAmount = sumSubtotals c'.items := by
  unfold removeItem at h
  split at h
  · simp at h
  · split at h
    · simp at h
    · simp only [Except.ok.injEq, Prod.ext_iff] at h
      rw [← h.1]
      exact saveCart_fst_totalAmount ..

lemma clearCart_ok_totalAmount (db : Db) (u : Oid) (now : Nat)
    (c' : Cart) (db' : Db) (h : clearCart db u now = .ok (some c', db')) :
    c'.totalAmount = sumSubtotals c'.items := by
  unfold clearCart at h
  split at h
  · simp at h
  · simp only [Except.ok.injEq, Prod.mk.injEq, Option.some.injEq] at h
    rw [← h.1]
    exact saveCart_fst_totalAmount ..

lemma applyMut_ok_totalAmount (db : Db) (u : Oid) (m : CartMut) (now : Nat)
    (c' : Cart) (db' : Db) (h : applyMut db u m now = .ok (some c', db')) :
    c'.totalAmount = sumSubtotals c'.items := by
  cases m with
  | add foodId shopId quantity =>
    unfold applyMut at h
    obtain ⟨v, hv, -⟩ := except_map_ok _ _ _ h
    exact absurd hv (addItem_ne_ok db u foodId shopId quantity now v)
  | update itemIndex quantity =>
    unfold applyMut at h
    obtain ⟨v, hv, hf⟩ := except_map_ok _ _ _ h
    simp only [Prod.mk.injEq, Option.some.injEq] at hf
    rw [← hf.1]
    exact updateItem_ok_totalAmount db u itemIndex quantity now v.1 v.2 hv
  | remove itemIndex =>
    unfold applyMut at h
    obtain ⟨v, hv, hf⟩ := except_map_ok _ _ _ h
    simp only [Prod.mk.injEq, Option.some.injEq] at hf
    rw [← hf.1]
    exact removeItem_ok_totalAmount db u itemIndex now v.1 v.2 hv
  | clear => exact clearCart_ok_totalAmount db u now c' db' h

lemma runMuts_ok_totalAmount (u : Oid) (ms : List (CartMut × Nat)) :
    ∀ (db : Db) (last : Option Cart),
      (∀ c, last = some c → c.totalAmount = sumSubtotals c.items) →
      ∀ (c' : Cart) (db' : Db), runMuts db u last ms = .ok (some c', db') →
        c'.totalAmount = sumSubtotals c'.items := by
  induction ms with
  | nil =>
    intro db last hl c' db' h
    simp only [runMuts, Except.ok.injEq, Prod.mk.injEq] at h
    exact hl c' h.1
  | cons step rest ih =>
    obtain ⟨m, now⟩ := step
    intro db last hl c' db' h
    unfold runMuts at h
    split at h
    · exact absurd h (by simp)
    · next c? db1 heq =>
      exact ih db1 c?
        (fun c hc => applyMut_ok_totalAmount db u m now c db1 (hc ▸ heq))
        c' db' h

/-! ## The claims -/

/-- Claim C1: For every cart and every sequence of successful cart mutations
(add item, update item quantity, remove item, clear), after each successful
mutation the cart's `totalAmount` equals the sum of `item.subtotal` over all
items in the cart.  (Each step of a sequence is itself the last step of a
prefix, and the initial store is arbitrary, so this statement covers every
intermediate state as well.) -/
theorem cart_totalAmount_invariant (db : Db) (u : Oid)
    (ms : List (CartMut × Nat)) (c' : Cart) (db' : Db)
    (h : runMuts db u none ms = .ok (some c', db')) :
    c'.totalAmount = sumSubtotals c'.items :=
  runMuts_ok_totalAmount u ms db none (by simp) c' db' h

/-- Witness for C1: updating item 0 of the example cart to quantity 3
succeeds, and the saved cart satisfies the invariant. -/
theorem cart_totalAmount_invariant_witness :
    runMuts exDb 9 none exMuts = .ok (some exRunCart, exRunDb) ∧
    exRunCart.totalAmount = sumSubtotals exRunCart.items :=
  ⟨rfl, cart_totalAmount_invariant exDb 9 exMuts exRunCart exRunDb rfl⟩

/-- Claim C9: For every shop with rating state (oldAverage, oldCount) and every
submitted rating, `updateRating` produces
`newAverage = round-to-one-decimal ((oldAverage×oldCount + newRating) / (oldCount+1))`
and `count = oldCount + 1`; in particular average 4.0 with count 10 and a new
rating of 5 yields average 4.1 and count 11. -/
theorem updateRating_incremental_mean :
    (∀ (s : Shop) (r : ℚ),
      (s.updateRating r).rating.count = s.rating.count + 1 ∧
      (s.updateRating r).rating.average =
        (jsRound ((s.rating.average * s.rating.count + r)
          / (s.rating.count + 1) * 10) : ℚ) / 10) ∧
    (exRatedShop.updateRating 5).rating.average = 41 / 10 ∧
    (exRatedShop.updateRating 5).rating.count = 11 := by
  refine ⟨fun s r => ⟨rfl, rfl⟩, ?_, ?_⟩
  · show (jsRound ((4 * 10 + 5) / (10 + 1) * 10) : ℚ) / 10 = 41 / 10
    norm_num [jsRound]
  · show (10 : ℚ) + 1 = 11
    norm_num

/-- Claim C6 (code bug).  The claim: `addItem` fails with NotFound for an
unknown food, with Conflict when the food's shop differs from the requested
`shopId`, and with Unavailable when the food is out of stock.  On the code:
only the NotFound branch behaves as claimed; for *every* existing food the
route reads `food.shop` — a path `FoodSchema` does not define (the schema
field is `shopid`) — so `food.shop.toString()` throws and the route answers
500, never Conflict or Unavailable (food 1 is in stock in shop 7, food 2 is
out of stock in shop 7). -/
theorem addItem_schema_mismatch :
    addItem exDb 9 99 7 1 5 = .error .foodNotFound ∧
    addItem exDb 9 1 8 1 5 = .error .internalServer ∧
    addItem exDb 9 2 7 1 5 = .error .internalServer ∧
    addItem exDb 9 1 7 1 5 = .error .internalServer :=
  ⟨rfl, rfl, rfl, rfl⟩

/-- Claim C7 (code bug).  The claim: a second successful `addItem` for a
(food, shop) pair already in the cart merges into the existing line.  On the
code no `addItem` with an existing food can succeed at all — the same
missing-path read as in C6 throws first — so the merge logic (which does
exist in the route, and in this embedding) is unreachable: with the pair
(food 1, shop 7) already in user 9's open cart, the second add answers 500
and saves nothing. -/
theorem addItem_merge_unreachable :
    exDb.openCart 9 = some exCart ∧
    exCart.items.findIdx? (fun item => item.food == 1 && item.shop == 7)
      = some 0 ∧
    addItem exDb 9 1 7 2 99 = .error .internalServer :=
  ⟨rfl, rfl, rfl⟩

lemma resolveOrderItems_length (db : Db) (l : List CartItem) :
    ∀ os, resolveOrderItems db l = some os → os.length = l.length := by
  induction l with
  | nil =>
    intro os h
    simp only [resolveOrderItems, Option.some.injEq] at h
    simp [← h]
  | cons item rest ih =>
    intro os h
    unfold resolveOrderItems at h
    split at h
    · simp at h
    · simp only [Option.map_eq_some'] at h
      obtain ⟨os', hos', rfl⟩ := h
      simp [ih os' hos']

/-- Claim C2: For every successful checkout, the created order carries the
fixed delivery fee 50 and
`grandTotal = totalAmount + deliveryFee + round(0.05 × totalAmount)`,
with `totalAmount` the cart's total. -/
theorem checkout_grand_total (db : Db) (u : Oid) (req : CheckoutReq)
    (now rand : Nat) (o : Order) (c' : Cart) (db2 : Db) (cart : Cart)
    (hc : db.openCart u = some cart)
    (h : checkout db u req now rand = (.ok (o, c'), db2)) :
    o.totalAmount = cart.totalAmount ∧ o.deliveryFee = 50 ∧
      o.taxes = (jsRound (o.totalAmount * (5 / 100)) : ℚ) ∧
      o.grandTotal = o.totalAmount + o.deliveryFee
        + (jsRound (o.totalAmount * (5 / 100)) : ℚ) := by
  unfold checkout at h
  split at h
  case h_2 => simp at h
  case h_1 pm addr phone =>
    split at h
    case isTrue => simp at h
    case isFalse =>
      split at h
      case h_1 => simp at h
      case h_2 cart1 hc1 =>
        rw [hc] at hc1
        injection hc1 with hc1
        subst hc1
        split at h
        case h_1 => simp at h
        case h_2 item0 tl hitems =>
          split at h
          case h_1 => simp at h
          case h_2 shop0 hshop =>
            split at h
            case h_1 => simp at h
            case h_2 orderItems hoi =>
              simp only [Prod.mk.injEq, Except.ok.injEq] at h
              obtain ⟨⟨ho, -⟩, -⟩ := h
              subst ho
              simp

/-- Witness for C2: the spec's example — a cart holding one line with price
100 and quantity 2 — checked out with cash on delivery: totalAmount 200,
deliveryFee 50, taxes 10, grandTotal 260. -/
theorem checkout_grand_total_witness :
    exDb.openCart 9 = some exCart ∧
    (checkout exDb 9 exReq 1000 7).1 = .ok (exOrder, exCartAfter) ∧
    exOrder.totalAmount = 200 ∧ exOrder.deliveryFee = 50 ∧
    exOrder.taxes = 10 ∧ exOrder.grandTotal = 260 := by
  obtain ⟨ht, hf, htax, hg⟩ :=
    checkout_grand_total exDb 9 exReq 1000 7 exOrder exCartAfter exDbAfter
      exCart rfl rfl
  have ht200 : exOrder.totalAmount = 200 := by rw [ht]; rfl
  refine ⟨rfl, rfl, ht200, hf, ?_, ?_⟩
  · rw [htax, ht200]; norm_num [jsRound]
  · rw [hg, ht200, hf]; norm_num [jsRound]

/-- Claim C3: For every user whose open cart is absent or empty, a checkout
request that passes field validation fails with the invalid-state
"Cart is empty" response, and the store — in particular the cart, still
open — is completely unchanged; no order is created. -/
theorem checkout_empty_cart (db : Db) (u : Oid) (req : CheckoutReq)
    (now rand : Nat) (pm : PaymentMethod) (addr : Address) (phone : String)
    (hpm : req.paymentMethod = some pm)
    (haddr : req.deliveryAddress = some addr)
    (hphone : req.phoneNumber = some phone) (hne : phone ≠ "")
    (hcart : db.openCart u = none ∨
      ∃ c, db.openCart u = some c ∧ c.items = []) :
    checkout db u req now rand = (.error .cartEmpty, db) := by
  unfold checkout
  rw [hpm, haddr, hphone]
  have hbeq : (phone == "") = false := beq_eq_false_iff_ne.mpr hne
  rcases hcart with hnone | ⟨c, hsome, hemp⟩
  · simp only [hbeq, Bool.false_eq_true, if_false, hnone]
  · simp only [hbeq, Bool.false_eq_true, if_false, hsome, hemp]

/-- Witness for C3: checkout on a store whose only cart for user 9 is open
and empty fails with "Cart is empty" and leaves the store untouched. -/
theorem checkout_empty_cart_witness :
    checkout exDbEmpty 9 exReq 1000 7 = (.error .cartEmpty, exDbEmpty) :=
  checkout_empty_cart exDbEmpty 9 exReq 1000 7 .cod exAddr "9876543210"
    rfl rfl rfl (by simp) (Or.inr ⟨exEmptyCart, rfl, rfl⟩)

/-- Claim C4: Every successful checkout creates exactly one order (appended to
the order collection) covering the whole cart, takes the order's `shopId`
from the cart's first item, flips the cart's `isCheckedOut` flag to true,
sets the order's initial status to `confirmed`, and sets
`estimatedDeliveryTime` to the checkout time plus 45 minutes. -/
theorem checkout_success_effects (db : Db) (u : Oid) (req : CheckoutReq)
    (now rand : Nat) (o : Order) (c' : Cart) (db2 : Db)
    (h : checkout db u req now rand = (.ok (o, c'), db2)) :
    db2.orders = db.orders ++ [o] ∧
    (∃ cart item0 tl, db.openCart u = some cart ∧ cart.items = item0 :: tl ∧
      o.shopId = item0.shop ∧ o.items.length = cart.items.length ∧
      c'.oid = cart.oid) ∧
    c'.isCheckedOut = true ∧
    o.status = .confirmed ∧
    o.estimatedDeliveryTime = some (now + 45 * 60 * 1000) := by
  unfold checkout at h
  split at h
  case h_2 => simp at h
  case h_1 pm addr phone =>
    split at h
    case isTrue => simp at h
    case isFalse =>
      split at h
      case h_1 => simp at h
      case h_2 cart hc1 =>
        split at h
        case h_1 => simp at h
        case h_2 item0 tl hitems =>
          split at h
          case h_1 => simp at h
          case h_2 shop0 hshop =>
            split at h
            case h_1 => simp at h
            case h_2 orderItems hoi =>
              simp only [Prod.mk.injEq, Except.ok.injEq] at h
              obtain ⟨⟨ho, hc'⟩, hdb2⟩ := h
              subst ho
              have hshopid : shop0.oid = item0.shop := by
                have := List.find?_some hshop
                simpa using this
              refine ⟨?_, ⟨cart, item0, tl, hc1, hitems, by simpa using hshopid,
                ?_, ?_⟩, ?_, rfl, rfl⟩
              · rw [← hdb2]; simp [Db.saveCart]
              · simpa using resolveOrderItems_length db cart.items orderItems hoi
              · rw [← hc']; simp [Db.saveCart, Cart.preSave]
              · rw [← hc']; simp [Db.saveCart, Cart.preSave]

/-- Witness for C4: the example checkout appends exactly the one created
order, whose shop is shop 7 (the first item's shop), with status
`confirmed` and delivery estimated for `1000 + 45×60×1000 = 2701000`;
the cart comes back checked out. -/
theorem checkout_success_effects_witness :
    exDbAfter.orders = exDb.orders ++ [exOrder] ∧
    exOrder.shopId = 7 ∧ exCartAfter.isCheckedOut = true ∧
    exOrder.status = .confirmed ∧
    exOrder.estimatedDeliveryTime = some 2701000 := by
  obtain ⟨h1, -, h3, h4, h5⟩ :=
    checkout_success_effects exDb 9 exReq 1000 7 exOrder exCartAfter
      exDbAfter rfl
  exact ⟨h1, rfl, h3, h4, h5⟩

/-- Claim C5: For every successful checkout: with payment method `cod` the
order is saved with `paymentStatus = pending` and a synthetic `COD_<now>`
payment reference set immediately; with `card` or `upi` it is saved with
`paymentStatus = completed` (reference `PAY_<now>`); with `wallet` neither
simulated-settlement branch runs, so the initial values — `pending` status,
no payment id — are saved untouched. -/
theorem checkout_payment_simulation (db : Db) (u : Oid) (req : CheckoutReq)
    (now rand : Nat) (o : Order) (c' : Cart) (db2 : Db)
    (h : checkout db u req now rand = (.ok (o, c'), db2)) :
    req.paymentMethod = some o.paymentMethod ∧
    (o.paymentMethod = .cod →
      o.paymentStatus = .pending ∧
        o.paymentId = some ("COD_" ++ toString now)) ∧
    ((o.paymentMethod = .card ∨ o.paymentMethod = .upi) →
      o.paymentStatus = .completed ∧
        o.paymentId = some ("PAY_" ++ toString now)) ∧
    (o.paymentMethod = .wallet →
      o.paymentStatus = .pending ∧ o.paymentId = none) := by
  unfold checkout at h
  split at h
  case h_2 => simp at h
  case h_1 pm addr phone hpm haddr hphone =>
    split at h
    case isTrue => simp at h
    case isFalse =>
      split at h
      case h_1 => simp at h
      case h_2 cart hc1 =>
        split at h
        case h_1 => simp at h
        case h_2 item0 tl hitems =>
          split at h
          case h_1 => simp at h
          case h_2 shop0 hshop =>
            split at h
            case h_1 => simp at h
            case h_2 orderItems hoi =>
              simp only [Prod.mk.injEq, Except.ok.injEq] at h
              obtain ⟨⟨ho, -⟩, -⟩ := h
              subst ho
              refine ⟨by simpa using hpm, ?_, ?_, ?_⟩ <;>
                cases pm <;> simp [paymentSim]

/-- Witness for C5: the example cash-on-delivery checkout yields a pending
payment with the synthetic reference `COD_1000`. -/
theorem checkout_payment_simulation_witness :
    exReq.paymentMethod = some PaymentMethod.cod ∧
    exOrder.paymentMethod = .cod ∧
    exOrder.paymentStatus = .pending ∧
    exOrder.paymentId = some "COD_1000" := by
  obtain ⟨-, hcod, -, -⟩ :=
    checkout_payment_simulation exDb 9 exReq 1000 7 exOrder exCartAfter
      exDbAfter rfl
  have hm : exOrder.paymentMethod = .cod := rfl
  obtain ⟨hs, hid⟩ := hcod hm
  exact ⟨rfl, hm, hs, by rw [hid]; rfl⟩

/-- Claim C10: A successful checkout changes only the cart's `isCheckedOut`
flag (and its `updatedAt` timestamp): for any open cart whose stored total
already equals the sum of its items' subtotals — which the pre-save hook
guarantees for every persisted cart — the saved cart has the same items,
the same `totalAmount`, and the same identity fields, with only the flag
flipped. -/
theorem checkout_cart_frame (db : Db) (u : Oid) (req : CheckoutReq)
    (now rand : Nat) (o : Order) (c' : Cart) (db2 : Db) (cart : Cart)
    (hc : db.openCart u = some cart)
    (hinv : cart.totalAmount = sumSubtotals cart.items)
    (h : checkout db u req now rand = (.ok (o, c'), db2)) :
    c'.items = cart.items ∧ c'.totalAmount = cart.totalAmount ∧
    c'.user = cart.user ∧ c'.oid = cart.oid ∧
    c'.createdAt = cart.createdAt ∧ c'.isCheckedOut = true := by
  unfold checkout at h
  split at h
  case h_2 => simp at h
  case h_1 pm addr phone =>
    split at h
    case isTrue => simp at h
    case isFalse =>
      split at h
      case h_1 => simp at h
      case h_2 cart1 hc1 =>
        rw [hc] at hc1
        injection hc1 with hc1
        subst hc1
        split at h
        case h_1 => simp at h
        case h_2 item0 tl hitems =>
          split at h
          case h_1 => simp at h
          case h_2 shop0 hshop =>
            split at h
            case h_1 => simp at h
            case h_2 orderItems hoi =>
              simp only [Prod.mk.injEq, Except.ok.injEq] at h
              obtain ⟨⟨-, hc'⟩, -⟩ := h
              rw [← hc']
              simp [Db.saveCart, Cart.preSave, hinv]

/-- Witness for C10: in the example checkout the saved cart keeps the same
single line and total 200 and differs only in `isCheckedOut` (and
`updatedAt`). -/
theorem checkout_cart_frame_witness :
    exCart.totalAmount = sumSubtotals exCart.items ∧
    exCartAfter.items = exCart.items ∧
    exCartAfter.totalAmount = exCart.totalAmount ∧
    exCartAfter.user = exCart.user ∧ exCartAfter.oid = exCart.oid ∧
    exCartAfter.createdAt = exCart.createdAt ∧
    exCartAfter.isCheckedOut = true := by
  have hinv : exCart.totalAmount = sumSubtotals exCart.items := by
    norm_num [exCart, exItem, sumSubtotals]
  obtain ⟨h1, h2, h3, h4, h5, h6⟩ :=
    checkout_cart_frame exDb 9 exReq 1000 7 exOrder exCartAfter exDbAfter
      exCart rfl hinv rfl
  exact ⟨hinv, h1, h2, h3, h4, h5, h6⟩

/-- Claim C8 (code bug).  The claim: a shop enters the trending list only if
its rating average is ≥ 4.0, or *its own* delivered orders in the trailing
7 days number ≥ 5, or it is featured; its `trendingScore` adds *its own*
weekly delivered-order count.  On the code the `$lookup` sub-pipeline binds
`let: { shopId: '$_id' }` but matches `$expr: { $eq: ['$shopId', '$shopId'] }`
— the order's field compared with itself, always true, instead of the bound
`$$shopId` — so `weeklyOrders` is the store-wide delivered count of the
trailing week.  Exhibit: `exTrendShop` (rating 3.5, not featured, zero
delivered orders of its own) must be excluded per the claim, yet with six
delivered orders that all belong to a *different* shop it is included, its
score counts those foreign orders (2×3.5 + 6 = 13), and the pipeline
returns it. -/
theorem trending_weekly_lookup_bug :
    shopWeeklyOrders exTrendShop.oid exOrders exNow = 0 ∧
    exTrendShop.rating.average = 7 / 2 ∧
    exTrendShop.isFeatured = false ∧
    weeklyStatsOrderCount exOrders exNow = 6 ∧
    trendingIncluded exTrendDoc exOrders exNow = true ∧
    trendingScore exTrendDoc exOrders exNow = 13 ∧
    trendingPipeline [exTrendDoc] exOrders exNow 10 = [exTrendDoc] := by
  have h6 : weeklyStatsOrderCount exOrders exNow = 6 := rfl
  have hincl : trendingIncluded exTrendDoc exOrders exNow = true := by
    rw [trendingIncluded, h6]
    simp
  refine ⟨rfl, rfl, rfl, h6, hincl, ?_, ?_⟩
  · rw [trendingScore, h6]
    norm_num [exTrendDoc, exTrendShop]
  · rw [trendingPipeline]
    simp [hincl]
